import Mathlib

/-!
# Verification of the nyc-taxi ETL pipeline core

Shallow embedding of the incremental ETL task graph from this repository:

* `src/prefect_pipelines/pipeline.py` — per-unit fetch / transform / load
  tasks and the orchestrating flows;
* `src/prefect_pipelines/upload_to_postgres.py` — yearly-partition loader
  (append with first-of-partition reset) driven by a worker pool;
* `src/airflow/dags/ingest_data_dag.py` — the Airflow variant's loader.

Machine-level I/O (HTTP transfer, SQL engine) is modelled by explicit state:
the per-unit artifact slice of the filesystem is a pair of optional file
contents (raw and canonical form — the paths `artifactPath` and
`artifactPath + ".gz"`; the data directory is partitioned by unit, so no two
units touch the same paths), and the warehouse table targeted by one unit is
an optional list of rows.  Definitions come first, then the theorems.
-/

/-- The per-unit slice of the local filesystem: contents of the raw artifact
file (at `artifactPath`) and of the canonical compressed artifact file (at
`artifactPath + ".gz"`), `none` when the file does not exist.  `α` is the
(opaque) type of file contents. -/
structure ArtifactFS (α : Type) where
  raw : Option α
  gz : Option α
deriving DecidableEq

/-- `fetch_dataset` (src/prefect_pipelines/pipeline.py lines 57-70): if a file
exists at `filepath + ".gz"` or at `filepath`, print and return; otherwise
download `url` into `filepath` (`os.system(f'wget {url} -O {filepath}')`).
`remote` is the content the transfer would produce; the second component of
the result counts network transfers performed. -/
def fetch_dataset {α : Type} (remote : α) (fs : ArtifactFS α) : ArtifactFS α × Nat :=
  if fs.gz.isSome || fs.raw.isSome then
    (fs, 0)
  else
    ({ raw := some remote, gz := fs.gz }, 1)

/-- `rename_columns` (src/prefect_pipelines/pipeline.py lines 72-95), file
access only: `pd.read_parquet(filepath)`, falling back to
`pd.read_parquet(filepath + ".gz")` on `FileNotFoundError`; the in-memory
table is then renamed by `rename : α → α` (the column mapping itself is
verified separately as `column_formatter`).  `none` models an uncaught
`FileNotFoundError` when neither artifact form exists. -/
def rename_columns_stage {α : Type} (rename : α → α) (fs : ArtifactFS α) : Option α :=
  match fs.raw with
  | some d => some (rename d)
  | none =>
    match fs.gz with
    | some d => some (rename d)
    | none => none

/-- `replace_data_file` (src/prefect_pipelines/pipeline.py lines 97-109): if
`filepath + ".gz"` already exists, return its contents and touch nothing;
otherwise `os.remove(filepath)` (raises, modelled as `none`, when the raw file
is absent) and write `df` compressed to `filepath + ".gz"`.  Returns the
dataframe handed on to the load stage together with the resulting filesystem. -/
def replace_data_file {α : Type} (df : α) (fs : ArtifactFS α) : Option (α × ArtifactFS α) :=
  match fs.gz with
  | some g => some (g, fs)
  | none =>
    match fs.raw with
    | none => none
    | some _ => some (df, { raw := none, gz := some df })

/-- The Transform stage as invoked by `etl_subflow` (pipeline.py lines
165-168): `rename_columns` followed by `replace_data_file` on the same
`filepath`. -/
def transform_stage {α : Type} (rename : α → α) (fs : ArtifactFS α) :
    Option (α × ArtifactFS α) :=
  match rename_columns_stage rename fs with
  | none => none
  | some df => replace_data_file df fs

/-- Outcome of one invocation of the monthly (fail-if-exists) loader. -/
inductive LoadOutcome
  | loaded
  | skipped
  | failed
deriving DecidableEq

/-- Body of `upload_to_postgres` (src/prefect_pipelines/pipeline.py lines
111-143), i.e. the code inside its `try:` block.  `table` is the current
contents of `schema.tablename` in the warehouse (`none` when the table does
not exist, matching `sa.inspect(engine).has_table`); `insertOk` says whether
`df.to_sql(..., if_exists='fail', ...)` would succeed.  The result carries
the outcome, the resulting table and the number of rows inserted; `.error`
models an exception escaping the block. -/
def upload_to_postgres_body {α : Type} (df : List α) (table : Option (List α))
    (insertOk : Bool) : Except String (LoadOutcome × Option (List α) × Nat) :=
  match table with
  | some t => .ok (.skipped, some t, 0)
  | none =>
    if insertOk then .ok (.loaded, some df, df.length)
    else .error "to_sql failed"

/-- The `upload_to_postgres` task of pipeline.py: its whole body is wrapped in
`try: ... except Exception as e: print(...)`, so no exception reaches the
caller; an escaped exception is converted into a printed failure report.
(A failed first insert is modelled as leaving the table absent.) -/
def upload_to_postgres_task {α : Type} (df : List α) (table : Option (List α))
    (insertOk : Bool) : LoadOutcome × Option (List α) × Nat :=
  match upload_to_postgres_body df table insertOk with
  | .ok r => r
  | .error _ => (.failed, none, 0)

/-- Outcome of the Airflow variant's `upload_to_postgres`. -/
inductive AirflowOutcome
  | success
  | insertFailed
  | readFailed
deriving DecidableEq

/-- `upload_to_postgres` of src/airflow/dags/ingest_data_dag.py (lines 18-39):
read the raw parquet file (`pd.read_parquet(filename)` raises when it is
absent — `.readFailed`), then `os.remove(filename)`, then
`df.to_sql(..., if_exists='append', ...)` (an exception here propagates with
the raw file already removed — `.insertFailed`), and only after a successful
insert write `df` compressed to `filename + ".gz"`. -/
def airflow_upload_to_postgres {α : Type} (fs : ArtifactFS α) (insertOk : Bool) :
    AirflowOutcome × ArtifactFS α :=
  match fs.raw with
  | none => (.readFailed, fs)
  | some d =>
    if insertOk then (.success, { raw := none, gz := some d })
    else (.insertFailed, { raw := none, gz := fs.gz })

/-- One upload of the yearly-partition loader `upload_to_postgres`
(src/prefect_pipelines/upload_to_postgres.py lines 56-63): month 1 does
`df.to_sql(..., if_exists='replace', ...)` — the yearly table is
truncated/recreated and then holds exactly `df` — while every other month
does `if_exists='append'`. -/
def upload_to_postgres_yearly {α : Type} (table : List α) (month : Nat)
    (df : List α) : List α :=
  if month = 1 then df else table ++ df

/-- A sequence of per-month uploads into one yearly table, starting from
whatever the table held before (`t0`, possibly leftovers of a prior run);
`rows m` is the content of month `m`'s canonical file. -/
def year_run {α : Type} (t0 : List α) (rows : Nat → List α) (sched : List Nat) :
    List α :=
  sched.foldl (fun table m => upload_to_postgres_yearly table m (rows m)) t0

/-- The twelve months of a year partition, in calendar order. -/
def year_months : List Nat := List.range' 1 12

/-- Modelled from the spec: the worker pool that drives the yearly loader
(`mp.Pool(...).map(upload_to_postgres, data_files)` in `load_data`,
src/prefect_pipelines/upload_to_postgres.py lines 66-88; the pool machinery
itself is outside src/) imposes no ordering between the per-file uploads, so
any permutation of the twelve monthly uploads is an admissible completion
order. -/
def pool_schedule_admissible (sched : List Nat) : Prop :=
  sched.Perm year_months

/-- Python `str.lower` on the ASCII column names used by this dataset: map
each of `'A'`..`'Z'` to the corresponding lowercase letter, leave every other
character unchanged. -/
def pyLowerChar (c : Char) : Char :=
  if 'A' ≤ c ∧ c ≤ 'Z' then Char.ofNat (c.toNat + 32) else c

/-- Whether `pat` occurs as a contiguous subsequence of `s` (`pat in s` in
Python). -/
def containsSub (pat : List Char) : List Char → Bool
  | [] => pat.isEmpty
  | c :: cs => pat.isPrefixOf (c :: cs) || containsSub pat cs

/-- Fuel-driven core of Python `str.replace`: scan left to right; at each
position where `pat` matches, emit `rep` and continue after the match
(replacements are not rescanned), otherwise keep the character.  `fuel` is an
upper bound on the number of steps; `s.length` steps always suffice for a
non-empty `pat`. -/
def listReplaceAux (pat rep : List Char) : Nat → List Char → List Char
  | _, [] => []
  | 0, s => s
  | fuel + 1, c :: cs =>
    if pat.isPrefixOf (c :: cs) then
      rep ++ listReplaceAux pat rep fuel ((c :: cs).drop pat.length)
    else
      c :: listReplaceAux pat rep fuel cs

/-- Python `s.replace(pat, rep)` for the non-empty patterns this pipeline
uses (the empty-pattern case never arises and is modelled as the identity). -/
def pyReplace (s pat rep : List Char) : List Char :=
  if pat.isEmpty then s else listReplaceAux pat rep s.length s

/-- `column_formatter` from `rename_columns`
(src/prefect_pipelines/pipeline.py line 86):
`name.replace('PUL','pickup_l').replace('DOL','dropoff_l').lower()`
`.replace('tpep_','').replace('lpep_','')`, applied to every column name of
the dataframe. -/
def column_formatter (name : List Char) : List Char :=
  let s1 := pyReplace name "PUL".toList "pickup_l".toList
  let s2 := pyReplace s1 "DOL".toList "dropoff_l".toList
  let s3 := s2.map pyLowerChar
  let s4 := pyReplace s3 "tpep_".toList []
  pyReplace s4 "lpep_".toList []

/-- Fuel-driven decimal rendering of a natural number (digits of `n / 10`
followed by the digit of `n % 10`); `n + 1` units of fuel always suffice. -/
def pyDecimalAux : Nat → Nat → List Char
  | 0, _ => []
  | fuel + 1, n =>
    if n < 10 then [Nat.digitChar n]
    else pyDecimalAux fuel (n / 10) ++ [Nat.digitChar (n % 10)]

/-- Python `f'{n}'` for a natural number: its decimal digits, no padding. -/
def pyDecimal (n : Nat) : List Char :=
  pyDecimalAux (n + 1) n

/-- Python `f'{n:0{width}d}'`: the decimal digits of `n`, left-padded with
zeros to at least `width` characters. -/
def pyFormat (width n : Nat) : List Char :=
  List.replicate (width - (pyDecimal n).length) '0' ++ pyDecimal n

/-- The two taxi services this pipeline ingests (`'yellow'` and `'green'`,
pipeline.py lines 182-184 and the Airflow DAG line 54). -/
inductive Service
  | yellow
  | green
deriving DecidableEq

/-- The service field of the name templates: `'yellow'` or `'green'`. -/
def service_chars : Service → List Char
  | .yellow => ['y', 'e', 'l', 'l', 'o', 'w']
  | .green => ['g', 'r', 'e', 'e', 'n']

/-- `construct_table_name` (src/prefect_pipelines/pipeline.py lines 26-30),
the monthly naming granularity: `f'{service}_tripdata_{year:04d}_{month:02d}'`. -/
def construct_table_name (s : Service) (year month : Nat) : List Char :=
  service_chars s ++ ['_', 't', 'r', 'i', 'p', 'd', 'a', 't', 'a', '_'] ++
    pyFormat 4 year ++ ['_'] ++ pyFormat 2 month

/-- The yearly naming granularity (src/prefect_pipelines/upload_to_postgres.py
line 53): `f'{service}_tripdata_{year}'`. -/
def yearly_table_name (s : Service) (year : Nat) : List Char :=
  service_chars s ++ ['_', 't', 'r', 'i', 'p', 'd', 'a', 't', 'a', '_'] ++
    pyDecimal year

/-- Retry count declared on the `fetch_dataset` task
(`@task(log_prints=True, retries=3, retry_delay_seconds=1)`, pipeline.py
line 57). -/
def fetch_retries : Nat := 3

/-- Retry delay declared on the `fetch_dataset` task, in seconds. -/
def fetch_retry_delay_seconds : Nat := 1

/-- Retry count declared on the `upload_to_postgres` task
(`@task(log_prints=True, retries=3, retry_delay_seconds=5)`, pipeline.py
line 111). -/
def load_retries : Nat := 3

/-- Retry delay declared on the `upload_to_postgres` task, in seconds. -/
def load_retry_delay_seconds : Nat := 5

/-- Modelled from the spec: the task retry engine (the Prefect runtime, not
under src/) that interprets the `retries=` declaration — on failure the task
alone is re-attempted, up to `retries` additional times after the first
attempt, with the declared delay between attempts; the failure of the final
attempt propagates.  `oracle i` tells whether attempt number `i` (counted
from 0) succeeds; the result is whether the task eventually succeeded
together with the number of attempts made. -/
def retryGo (oracle : Nat → Bool) : Nat → Nat → Bool × Nat
  | 0, i => (oracle i, i + 1)
  | r + 1, i => if oracle i then (true, i + 1) else retryGo oracle r (i + 1)

/-- Run a task with the given retry budget, starting at attempt 0. -/
def runWithRetries (retries : Nat) (oracle : Nat → Bool) : Bool × Nat :=
  retryGo oracle retries 0

/-- One attempt of the `fetch_dataset` task body with the transfer outcome
made explicit (pipeline.py lines 57-70): when no artifact exists the task
runs `os.system(f'wget {url} -O {filepath}')`.  `wget -O` creates the output
file even when the transfer fails, and `os.system` returns the transfer's
exit status — which the code discards — instead of raising, so the attempt
installs `remote` on a successful transfer and a truncated/corrupt file
`corrupt` on a failed one.  The last component records whether the attempt
raised an exception the retry engine could see: no statement of the body can
raise, so it is `false` on every path. -/
def fetch_dataset_attempt {α : Type} (remote corrupt : α) (transferOk : Bool)
    (fs : ArtifactFS α) : ArtifactFS α × Nat × Bool :=
  if fs.gz.isSome || fs.raw.isSome then
    (fs, 0, false)
  else
    ({ raw := some (if transferOk then remote else corrupt), gz := fs.gz }, 1, false)

/-- Whether one execution of the `upload_to_postgres` task raises an
exception the retry engine could see: the catch-all
`except Exception as e: print(...)` (pipeline.py lines 141-143) converts the
`.error` outcome of the body into a printed message and a normal return, so
the answer is `false` on both branches. -/
def upload_task_raises {α : Type} (df : List α) (table : Option (List α))
    (insertOk : Bool) : Bool :=
  match upload_to_postgres_body df table insertOk with
  | .ok _ => false
  | .error _ => false

/-- The units of one run of `etl_taxi_trips year` (pipeline.py lines
173-184): `for month in range(1, 13)`, a yellow subflow then a green subflow
per month. -/
def run_units : List (Nat × Service) :=
  (List.range' 1 12).flatMap (fun m => [(m, Service.yellow), (m, Service.green)])

/-- Outcome of a unit whose subflow ran to the end. -/
inductive UnitOutcome
  | loaded
  | loadFailed
deriving DecidableEq

/-- Sequential execution of the unit subflows exactly as the `etl_taxi_trips`
loop does (pipeline.py lines 173-184): no `try`/`except` surrounds the
`etl_subflow` calls, so an exception raised by a unit's transform tasks
(`rename_columns` / `replace_data_file` after their own retries; `tRaises`)
aborts the loop, while a load failure is swallowed inside
`upload_to_postgres`'s catch-all (`lFails`) and the loop continues.  Returns
the units that ran to the end with their outcomes, and the unit whose raised
exception aborted the run, if any. -/
def run_etl_loop (tRaises lFails : Nat × Service → Bool) :
    List (Nat × Service) → List ((Nat × Service) × UnitOutcome) × Option (Nat × Service)
  | [] => ([], none)
  | u :: rest =>
    if tRaises u then ([], some u)
    else
      let o := if lFails u then UnitOutcome.loadFailed else UnitOutcome.loaded
      let r := run_etl_loop tRaises lFails rest
      ((u, o) :: r.1, r.2)

/-- `etl_taxi_trips` for one year: the loop applied to the 24 units. -/
def etl_taxi_trips_model (tRaises lFails : Nat × Service → Bool) :
    List ((Nat × Service) × UnitOutcome) × Option (Nat × Service) :=
  run_etl_loop tRaises lFails run_units

/-! ## Auxiliary lemmas -/

/-- A no-op replace: when `pat` does not occur in `s`, any fuel leaves `s`
untouched. -/
theorem listReplaceAux_of_not_contains (pat rep : List Char) (fuel : Nat)
    (s : List Char) (h : containsSub pat s = false) :
    listReplaceAux pat rep fuel s = s := by
  induction fuel generalizing s with
  | zero => cases s <;> simp [listReplaceAux]
  | succ f ih =>
    cases s with
    | nil => simp [listReplaceAux]
    | cons c cs =>
      rw [containsSub, Bool.or_eq_false_iff] at h
      simp [listReplaceAux, h.1, ih cs h.2]

/-- `pyReplace` is the identity when the pattern does not occur. -/
theorem pyReplace_of_not_contains {s pat : List Char} (rep : List Char)
    (h : containsSub pat s = false) : pyReplace s pat rep = s := by
  unfold pyReplace
  split
  · rfl
  · exact listReplaceAux_of_not_contains pat rep s.length s h

/-- The fuel argument of `pyDecimalAux` is irrelevant once it exceeds `n`. -/
theorem pyDecimalAux_fuel_eq (f g n : Nat) (hf : n < f) (hg : n < g) :
    pyDecimalAux f n = pyDecimalAux g n := by
  induction f generalizing g n with
  | zero => omega
  | succ f ih =>
    cases g with
    | zero => omega
    | succ g =>
      rw [pyDecimalAux, pyDecimalAux]
      by_cases h : n < 10
      · simp [h]
      · simp only [h, if_false]
        rw [ih g (n / 10) (by omega) (by omega)]

theorem pyDecimal_of_lt {n : Nat} (h : n < 10) : pyDecimal n = [Nat.digitChar n] := by
  rw [pyDecimal, pyDecimalAux, if_pos h]

theorem pyDecimal_of_ge {n : Nat} (h : 10 ≤ n) :
    pyDecimal n = pyDecimal (n / 10) ++ [Nat.digitChar (n % 10)] := by
  rw [pyDecimal, pyDecimalAux, if_neg (by omega)]
  rw [pyDecimalAux_fuel_eq n (n / 10 + 1) (n / 10) (by omega) (by omega)]
  rfl

theorem pyDecimal_two_digits {n : Nat} (h1 : 10 ≤ n) (h2 : n < 100) :
    pyDecimal n = [Nat.digitChar (n / 10), Nat.digitChar (n % 10)] := by
  rw [pyDecimal_of_ge h1, pyDecimal_of_lt (show n / 10 < 10 by omega)]
  rfl

theorem pyDecimal_three_digits {n : Nat} (h1 : 100 ≤ n) (h2 : n < 1000) :
    pyDecimal n = [Nat.digitChar (n / 100), Nat.digitChar (n / 10 % 10),
      Nat.digitChar (n % 10)] := by
  rw [pyDecimal_of_ge (by omega), pyDecimal_two_digits (show 10 ≤ n / 10 by omega)
    (show n / 10 < 100 by omega)]
  have e1 : n / 10 / 10 = n / 100 := by omega
  rw [e1]
  rfl

theorem pyDecimal_four_digits {n : Nat} (h1 : 1000 ≤ n) (h2 : n < 10000) :
    pyDecimal n = [Nat.digitChar (n / 1000), Nat.digitChar (n / 100 % 10),
      Nat.digitChar (n / 10 % 10), Nat.digitChar (n % 10)] := by
  rw [pyDecimal_of_ge (by omega), pyDecimal_three_digits (show 100 ≤ n / 10 by omega)
    (show n / 10 < 1000 by omega)]
  have e1 : n / 10 / 100 = n / 1000 := by omega
  have e2 : n / 10 / 10 % 10 = n / 100 % 10 := by omega
  rw [e1, e2]
  rfl

theorem pyFormat_two_spec {n : Nat} (h : n < 100) :
    pyFormat 2 n = [Nat.digitChar (n / 10), Nat.digitChar (n % 10)] := by
  by_cases h1 : n < 10
  · rw [pyFormat, pyDecimal_of_lt h1]
    have e1 : n / 10 = 0 := by omega
    have e2 : n % 10 = n := by omega
    rw [e1, e2]
    rfl
  · rw [pyFormat, pyDecimal_two_digits (by omega) h]
    rfl

theorem pyFormat_four_spec {n : Nat} (h : n < 10000) :
    pyFormat 4 n = [Nat.digitChar (n / 1000), Nat.digitChar (n / 100 % 10),
      Nat.digitChar (n / 10 % 10), Nat.digitChar (n % 10)] := by
  by_cases h1 : n < 10
  · rw [pyFormat, pyDecimal_of_lt h1]
    have e1 : n / 1000 = 0 := by omega
    have e2 : n / 100 % 10 = 0 := by omega
    have e3 : n / 10 % 10 = 0 := by omega
    have e4 : n % 10 = n := by omega
    rw [e1, e2, e3, e4]
    rfl
  · by_cases h2 : n < 100
    · rw [pyFormat, pyDecimal_two_digits (by omega) h2]
      have e1 : n / 1000 = 0 := by omega
      have e2 : n / 100 % 10 = 0 := by omega
      have e3 : n / 10 % 10 = n / 10 := by omega
      rw [e1, e2, e3]
      rfl
    · by_cases h3 : n < 1000
      · rw [pyFormat, pyDecimal_three_digits (by omega) h3]
        have e1 : n / 1000 = 0 := by omega
        have e2 : n / 100 % 10 = n / 100 := by omega
        rw [e1, e2]
        rfl
      · rw [pyFormat, pyDecimal_four_digits (by omega) h]
        rfl

/-- `Nat.digitChar` is injective on single digits. -/
theorem digitChar_inj_lt_ten :
    ∀ a, a < 10 → ∀ b, b < 10 → Nat.digitChar a = Nat.digitChar b → a = b := by
  decide

/-! ## The claims -/

/-- Claim C1: Fetch is idempotent — for every unit whose artifact already
exists on disk in raw form (`artifactPath`) or canonical form
(`artifactPath + ".gz"`), `fetch_dataset` returns immediately, performs zero
network transfers, and leaves the filesystem unchanged. -/
theorem fetch_idempotent {α : Type} (remote : α) (fs : ArtifactFS α)
    (h : fs.raw.isSome ∨ fs.gz.isSome) :
    fetch_dataset remote fs = (fs, 0) := by
  rcases h with h | h <;> simp [fetch_dataset, h]

theorem fetch_idempotent_witness :
    fetch_dataset 9 (ArtifactFS.mk (some 3) (none : Option Nat)) =
      (ArtifactFS.mk (some 3) none, 0) :=
  fetch_idempotent 9 ⟨some 3, none⟩ (Or.inl (by decide))

/-- Claim C2: when the Transform stage completes, exactly one artifact form
exists on disk for the unit — either the raw file was removed and the
canonical file written, or an existing canonical file was detected and
re-transformation skipped; the raw file is never left behind alongside the
canonical file.  The hypothesis is the Artifact invariant of the spec's data
model (raw and canonical never coexist), which holds in every state this
pipeline can produce: a fresh unit has neither file, a crash during fetch
leaves at most the raw file, a crash inside `replace_data_file` leaves at
most one of the two files, and this theorem shows every completed transform
re-establishes it. -/
theorem transform_exactly_one_artifact {α : Type} (rename : α → α) (remote : α)
    (fs : ArtifactFS α) (h : ¬(fs.raw.isSome ∧ fs.gz.isSome)) :
    ∃ df fs', transform_stage rename (fetch_dataset remote fs).1 = some (df, fs') ∧
      fs'.raw = none ∧ fs'.gz = some df := by
  rcases fs with ⟨raw, gz⟩
  rcases raw with _ | r <;> rcases gz with _ | g
  · exact ⟨rename remote, _, rfl, rfl, rfl⟩
  · exact ⟨g, _, rfl, rfl, rfl⟩
  · exact ⟨rename r, _, rfl, rfl, rfl⟩
  · simp at h

theorem transform_exactly_one_artifact_witness :
    ∃ df fs', transform_stage (fun d => d + 1) (fetch_dataset 5 (ArtifactFS.mk (none : Option Nat) none)).1 = some (df, fs') ∧
      fs'.raw = none ∧ fs'.gz = some df :=
  transform_exactly_one_artifact (fun d => d + 1) 5 ⟨none, none⟩ (by decide)

/-- Claim C3: under the fail-if-exists load policy, whenever the target table
already exists in the warehouse, the Load stage performs zero row inserts,
reports the unit as skipped/already loaded, and never raises to its caller:
the `try:` body itself already returns normally (`.ok`), and the catch-all
`except` makes the task total in every case. -/
theorem load_fail_if_exists_skips {α : Type} (df t : List α) (insertOk : Bool) :
    upload_to_postgres_body df (some t) insertOk = .ok (.skipped, some t, 0) ∧
    upload_to_postgres_task df (some t) insertOk = (.skipped, some t, 0) :=
  ⟨rfl, rfl⟩

/-- Claim C4: under the append-with-reset policy, loading month 1 first
(which replaces the table) and then months 2-12 in order yields exactly the
concatenation of the twelve months' rows — row count the sum of the twelve
source row counts, no duplicates — regardless of any leftover rows `t0` from
a prior run. -/
theorem append_with_reset_in_order (α : Type) (t0 : List α) (rows : Nat → List α) :
    year_run t0 rows year_months =
      rows 1 ++ rows 2 ++ rows 3 ++ rows 4 ++ rows 5 ++ rows 6 ++ rows 7 ++
        rows 8 ++ rows 9 ++ rows 10 ++ rows 11 ++ rows 12 ∧
    (year_run t0 rows year_months).length =
      (rows 1).length + (rows 2).length + (rows 3).length + (rows 4).length +
        (rows 5).length + (rows 6).length + (rows 7).length + (rows 8).length +
        (rows 9).length + (rows 10).length + (rows 11).length + (rows 12).length := by
  have hm : year_months = [1, 2, 3, 4, 5, 6, 7, 8, 9, 10, 11, 12] := by decide
  have h : year_run t0 rows year_months =
      rows 1 ++ rows 2 ++ rows 3 ++ rows 4 ++ rows 5 ++ rows 6 ++ rows 7 ++
        rows 8 ++ rows 9 ++ rows 10 ++ rows 11 ++ rows 12 := by
    rw [hm]
    simp [year_run, upload_to_postgres_yearly, List.append_assoc]
  refine ⟨h, ?_⟩
  rw [h]
  simp only [List.length_append]

/-- Claim C5 as stated is false: `VendorID` is a source column name outside
the known mappings (it contains none of the patterns `PUL`, `DOL`, `tpep_`,
`lpep_`), yet it does not pass through unchanged — the formatter lowercases
it to `vendorid`. -/
theorem rename_unknown_not_unchanged_counterexample :
    containsSub "PUL".toList "VendorID".toList = false ∧
    containsSub "DOL".toList "VendorID".toList = false ∧
    containsSub "tpep_".toList "VendorID".toList = false ∧
    containsSub "lpep_".toList "VendorID".toList = false ∧
    column_formatter "VendorID".toList ≠ "VendorID".toList ∧
    column_formatter "VendorID".toList = "vendorid".toList := by
  decide

/-- Claim C5, amended: the column-rename mapping is the deterministic, total
pure function `column_formatter` on column-name strings; every known source
column name (the service-prefixed timestamp columns and the abbreviated
location-id columns) maps to exactly one canonical name, and every column
name outside the known mappings passes through with only ASCII lowercasing
applied (so it is preserved, never dropped; an already-lowercase unmapped
name is unchanged). -/
theorem rename_mapping_deterministic_total (name : List Char)
    (hPUL : containsSub "PUL".toList name = false)
    (hDOL : containsSub "DOL".toList name = false)
    (hT : containsSub "tpep_".toList (name.map pyLowerChar) = false)
    (hL : containsSub "lpep_".toList (name.map pyLowerChar) = false) :
    column_formatter name = name.map pyLowerChar ∧
    ((∀ c ∈ name, pyLowerChar c = c) → column_formatter name = name) ∧
    column_formatter "tpep_pickup_datetime".toList = "pickup_datetime".toList ∧
    column_formatter "tpep_dropoff_datetime".toList = "dropoff_datetime".toList ∧
    column_formatter "lpep_pickup_datetime".toList = "pickup_datetime".toList ∧
    column_formatter "lpep_dropoff_datetime".toList = "dropoff_datetime".toList ∧
    column_formatter "PULocationID".toList = "pickup_locationid".toList ∧
    column_formatter "DOLocationID".toList = "dropoff_locationid".toList := by
  have h : column_formatter name = name.map pyLowerChar := by
    unfold column_formatter
    dsimp only
    rw [pyReplace_of_not_contains _ hPUL, pyReplace_of_not_contains _ hDOL,
      pyReplace_of_not_contains _ hT, pyReplace_of_not_contains _ hL]
  refine ⟨h, ?_, by decide, by decide, by decide, by decide, by decide, by decide⟩
  intro hid
  rw [h]
  exact List.map_congr_left hid |>.trans (List.map_id name)

theorem rename_mapping_witness :
    column_formatter "RatecodeID".toList = "RatecodeID".toList.map pyLowerChar ∧
    column_formatter "fare_amount".toList = "fare_amount".toList :=
  ⟨(rename_mapping_deterministic_total "RatecodeID".toList (by decide) (by decide)
      (by decide) (by decide)).1,
    (rename_mapping_deterministic_total "fare_amount".toList (by decide) (by decide)
      (by decide) (by decide)).2.1 (by decide)⟩

/-- Claim C6: the Partition Naming Policy is a pure deterministic function,
and under both granularities two units in the same partition resolve to the
same table name while units in different partitions (different service or
year, and under the monthly granularity also different month) never collide:
for valid inputs (four-digit years, months 1-12) the monthly name determines
`(service, year, month)` and the yearly name determines `(service, year)`
exactly. -/
theorem naming_policy_pure_injective (s1 s2 : Service) (y1 y2 m1 m2 : Nat)
    (hy : 1000 ≤ y1 ∧ y1 < 10000 ∧ 1000 ≤ y2 ∧ y2 < 10000)
    (hm : 1 ≤ m1 ∧ m1 ≤ 12 ∧ 1 ≤ m2 ∧ m2 ≤ 12) :
    (construct_table_name s1 y1 m1 = construct_table_name s2 y2 m2 ↔
      (s1 = s2 ∧ y1 = y2 ∧ m1 = m2)) ∧
    (yearly_table_name s1 y1 = yearly_table_name s2 y2 ↔ (s1 = s2 ∧ y1 = y2)) := by
  obtain ⟨hy1, hy1', hy2, hy2'⟩ := hy
  obtain ⟨hm1, hm1', hm2, hm2'⟩ := hm
  constructor
  · constructor
    · intro h
      rw [construct_table_name, construct_table_name,
        pyFormat_four_spec (show y1 < 10000 by omega),
        pyFormat_four_spec (show y2 < 10000 by omega),
        pyFormat_two_spec (show m1 < 100 by omega),
        pyFormat_two_spec (show m2 < 100 by omega)] at h
      cases s1 <;> cases s2
      case yellow.green =>
        exfalso
        have hl := congrArg List.length h
        simp [service_chars] at hl
      case green.yellow =>
        exfalso
        have hl := congrArg List.length h
        simp [service_chars] at hl
      all_goals
        simp only [service_chars, List.cons_append, List.nil_append,
          List.cons.injEq, true_and, and_true] at h
      all_goals
        obtain ⟨d1, d2, d3, d4, d5, d6⟩ := h
      all_goals
        refine ⟨rfl, ?_, ?_⟩
      all_goals
        first
        | (have e1 := digitChar_inj_lt_ten _ (by omega) _ (by omega) d1
           have e2 := digitChar_inj_lt_ten _ (by omega) _ (by omega) d2
           have e3 := digitChar_inj_lt_ten _ (by omega) _ (by omega) d3
           have e4 := digitChar_inj_lt_ten _ (by omega) _ (by omega) d4
           omega)
        | (have e5 := digitChar_inj_lt_ten _ (by omega) _ (by omega) d5
           have e6 := digitChar_inj_lt_ten _ (by omega) _ (by omega) d6
           omega)
    · rintro ⟨rfl, rfl, rfl⟩
      rfl
  · constructor
    · intro h
      rw [yearly_table_name, yearly_table_name,
        pyDecimal_four_digits hy1 hy1', pyDecimal_four_digits hy2 hy2'] at h
      cases s1 <;> cases s2
      case yellow.green =>
        exfalso
        have hl := congrArg List.length h
        simp [service_chars] at hl
      case green.yellow =>
        exfalso
        have hl := congrArg List.length h
        simp [service_chars] at hl
      all_goals
        simp only [service_chars, List.cons_append, List.nil_append,
          List.cons.injEq, true_and, and_true] at h
      all_goals
        obtain ⟨d1, d2, d3, d4⟩ := h
      all_goals
        refine ⟨rfl, ?_⟩
      all_goals
        have e1 := digitChar_inj_lt_ten _ (by omega) _ (by omega) d1
        have e2 := digitChar_inj_lt_ten _ (by omega) _ (by omega) d2
        have e3 := digitChar_inj_lt_ten _ (by omega) _ (by omega) d3
        have e4 := digitChar_inj_lt_ten _ (by omega) _ (by omega) d4
        omega
    · rintro ⟨rfl, rfl⟩
      rfl

theorem naming_policy_witness :
    (construct_table_name Service.yellow 2020 3 = construct_table_name Service.green 2021 4 ↔
      (Service.yellow = Service.green ∧ 2020 = 2021 ∧ 3 = 4)) ∧
    (yearly_table_name Service.yellow 2020 = yearly_table_name Service.green 2021 ↔
      (Service.yellow = Service.green ∧ 2020 = 2021)) :=
  naming_policy_pure_injective Service.yellow Service.green 2020 2021 3 4
    (by decide) (by decide)

/-- Claim C7: the claim describes the declared intent — both task decorators
carry `retries=3` with a short delay, and the spec calls for
retry-then-fatal — but the code's error paths never reach the retry engine,
so no recoverable Fetch or Load failure is ever re-attempted or propagated as
fatal.  At a concrete recoverable load failure (table absent, `to_sql`
raising) the body fails, yet the catch-all makes the task return normally
with a printed report; the engine sees no exception, performs exactly one
attempt and records success — not four attempts ending in a fatal failure.
A failed fetch transfer likewise raises nothing, is never retried, and
leaves a corrupt raw file at `filepath` that makes the next run's existence
check skip the download entirely. -/
theorem retry_config_dead_code :
    upload_to_postgres_body ([1] : List Nat) none false = .error "to_sql failed" ∧
    upload_to_postgres_task ([1] : List Nat) none false = (.failed, none, 0) ∧
    upload_task_raises ([1] : List Nat) none false = false ∧
    runWithRetries load_retries
      (fun _ => !upload_task_raises ([1] : List Nat) none false) = (true, 1) ∧
    (true, 1) ≠ ((false, 4) : Bool × Nat) ∧
    (fetch_dataset_attempt 7 0 false (ArtifactFS.mk (none : Option Nat) none)).2.2 = false ∧
    runWithRetries fetch_retries
      (fun _ => !(fetch_dataset_attempt 7 0 false (ArtifactFS.mk (none : Option Nat) none)).2.2) =
      (true, 1) ∧
    fetch_dataset 7 (fetch_dataset_attempt 7 0 false (ArtifactFS.mk (none : Option Nat) none)).1 =
      ((fetch_dataset_attempt 7 0 false (ArtifactFS.mk (none : Option Nat) none)).1, 0) :=
  ⟨rfl, rfl, rfl, rfl, by decide, rfl, rfl, rfl⟩

/-- Claim C8 as stated is false: if unit (green, month 5)'s transform raises
(after its task-level retries), the run aborts there — unit (yellow, month 6)
(and every later unit) never executes, and no per-unit outcome summary of the
whole parameter space is produced. -/
theorem failure_isolation_counterexample :
    (etl_taxi_trips_model (fun u => decide (u = (5, Service.green))) (fun _ => false)).2 =
      some (5, Service.green) ∧
    (6, Service.yellow) ∉
      (etl_taxi_trips_model (fun u => decide (u = (5, Service.green))) (fun _ => false)).1.map
        Prod.fst ∧
    (5, Service.green) ≠ (6, Service.yellow) := by
  decide

/-- Claim C8, amended: the orchestrator runs the 24 units strictly in
sequence with no failure collection — units before the first unit whose
stage raises all run to completion, the raising unit aborts the run, and
every later unit never executes; only load-stage failures are isolated
(they are swallowed inside the load task's catch-all), so when no transform
raises, all 24 units execute to the end whatever the load outcomes are. -/
theorem etl_run_abort_behavior :
    (∀ lFails, (etl_taxi_trips_model (fun _ => false) lFails).2 = none ∧
      (etl_taxi_trips_model (fun _ => false) lFails).1.map Prod.fst = run_units) ∧
    (∀ tRaises lFails,
      (etl_taxi_trips_model tRaises lFails).1.map Prod.fst =
        run_units.takeWhile (fun u => !tRaises u) ∧
      (etl_taxi_trips_model tRaises lFails).2 =
        (run_units.dropWhile (fun u => !tRaises u)).head?) := by
  have general : ∀ (tRaises lFails : Nat × Service → Bool)
      (us : List (Nat × Service)),
      (run_etl_loop tRaises lFails us).1.map Prod.fst =
        us.takeWhile (fun u => !tRaises u) ∧
      (run_etl_loop tRaises lFails us).2 =
        (us.dropWhile (fun u => !tRaises u)).head? := by
    intro tRaises lFails us
    induction us with
    | nil => exact ⟨rfl, rfl⟩
    | cons u rest ih =>
      by_cases h : tRaises u = true
      · simp [run_etl_loop, h, List.takeWhile_cons, List.dropWhile_cons]
      · rw [Bool.not_eq_true] at h
        simp [run_etl_loop, h, List.takeWhile_cons, List.dropWhile_cons, ih]
  refine ⟨?_, fun tRaises lFails => general tRaises lFails run_units⟩
  intro lFails
  have g := general (fun _ => false) lFails run_units
  unfold etl_taxi_trips_model
  refine ⟨?_, ?_⟩
  · rw [g.2]
    decide
  · rw [g.1]
    decide

/-- Claim C9 is violated by the code: the pool admits the completion order
2, 1, 3, ..., 12 (month 2's upload finishes before month 1's even begins),
and under it month 1's `replace` wipes month 2's already-appended rows — with
one row per month the yearly table ends with 11 rows instead of 12 and month
2's row is missing, unlike the in-calendar-order run. -/
theorem append_reset_pool_order_bug :
    pool_schedule_admissible [2, 1, 3, 4, 5, 6, 7, 8, 9, 10, 11, 12] ∧
    year_run ([] : List Nat) (fun m => [m]) [2, 1, 3, 4, 5, 6, 7, 8, 9, 10, 11, 12] =
      [1, 3, 4, 5, 6, 7, 8, 9, 10, 11, 12] ∧
    2 ∉ year_run ([] : List Nat) (fun m => [m]) [2, 1, 3, 4, 5, 6, 7, 8, 9, 10, 11, 12] ∧
    year_run ([] : List Nat) (fun m => [m]) [2, 1, 3, 4, 5, 6, 7, 8, 9, 10, 11, 12] ≠
      year_run ([] : List Nat) (fun m => [m]) year_months := by
  have hp : List.Perm [2, 1, 3, 4, 5, 6, 7, 8, 9, 10, 11, 12] year_months := by decide
  exact ⟨hp, by decide, by decide, by decide⟩

/-- Claim C10 as stated is false: when a canonical file from an earlier
successful run is still on disk (the function writes `filename + ".gz"` on
every success and never deletes it, and the DAG re-downloads the raw file on
every scheduled run), an invocation whose insert raises does leave an
artifact — the stale canonical file — on disk. -/
theorem airflow_failure_artifact_counterexample :
    (airflow_upload_to_postgres (ArtifactFS.mk (some 1) (some (2 : Nat))) false).1 = .insertFailed ∧
    ¬((airflow_upload_to_postgres (ArtifactFS.mk (some 1) (some (2 : Nat))) false).2.raw = none ∧
      (airflow_upload_to_postgres (ArtifactFS.mk (some 1) (some (2 : Nat))) false).2.gz = none) := by
  refine ⟨rfl, ?_⟩
  intro h
  exact Option.noConfusion h.2

/-- Claim C10, amended: the raw artifact is deleted before the insert is
attempted and the canonical file is written only after the insert succeeds;
hence an invocation whose insert raises terminates with the raw file removed
and the canonical file exactly as it was before the call — in particular,
when no canonical file existed beforehand, no artifact at all remains on disk
and a subsequent run must re-download the source file. -/
theorem airflow_upload_failure_state {α : Type} (fs : ArtifactFS α) (d : α)
    (h : fs.raw = some d) :
    (airflow_upload_to_postgres fs false).1 = .insertFailed ∧
    (airflow_upload_to_postgres fs false).2.raw = none ∧
    (airflow_upload_to_postgres fs false).2.gz = fs.gz ∧
    (airflow_upload_to_postgres fs true).2 = ⟨none, some d⟩ ∧
    (fs.gz = none → (airflow_upload_to_postgres fs false).2 = ⟨none, none⟩) := by
  rcases fs with ⟨raw, gz⟩
  cases h
  refine ⟨rfl, rfl, rfl, rfl, ?_⟩
  rintro rfl
  rfl

theorem airflow_upload_failure_witness :
    (airflow_upload_to_postgres (ArtifactFS.mk (some 4) (none : Option Nat)) false).1 = .insertFailed ∧
    (airflow_upload_to_postgres (ArtifactFS.mk (some 4) (none : Option Nat)) false).2.raw = none ∧
    (airflow_upload_to_postgres (ArtifactFS.mk (some 4) (none : Option Nat)) false).2.gz = none ∧
    (airflow_upload_to_postgres (ArtifactFS.mk (some 4) (none : Option Nat)) true).2 = ⟨none, some 4⟩ ∧
    (none = (none : Option Nat) → (airflow_upload_to_postgres (ArtifactFS.mk (some 4) (none : Option Nat)) false).2 = ⟨none, none⟩) :=
  airflow_upload_failure_state ⟨some 4, none⟩ 4 rfl
